import Mathlib

/-!
Verification of the google-delete-workforce-user action.

Shallow embedding of `src/script.mjs` (the main action: `invoke`, `error`,
`halt`, with helpers `getAccessToken`, `deleteWorkforceUser`,
`validateInputs`) and of the camelCase variant in `src/unnamed/part_001`.

JavaScript values that flow through the handlers are modelled by `JSVal`
(undefined, strings, booleans, and a catch-all for other values carrying
only their truthiness).  Returned JS object literals are modelled as
ordered field lists (`JSObj`), so that presence or absence of a field is
statable.  External nondeterminism (fetch responses, JSON parsing of the
service-account key, RSA signing) is a `World` record; each handler is a
pure function of its parameters and the world.  Thrown JS errors are
`Except` errors: `JsError.classified` for `RetryableError`/`FatalError`
instances (which carry a `retryable` boolean) and `JsError.raw` for any
other exception.  Each network `fetch` appends a `NetCall` to a trace, so
claims about the number and order of HTTP requests are statable.
-/

/-- Model of a JavaScript value as seen by this action: `undefined`, a
string, a boolean, or any other value of which only the truthiness
matters to the code. -/
inductive JSVal where
  | undef
  | str (s : String)
  | bool (b : Bool)
  | other (truthy : Bool)
deriving DecidableEq, Repr

/-- Truthiness of a `JSVal`, as JavaScript coerces it in a condition. -/
def jsTruthy : JSVal → Bool
  | JSVal.undef => false
  | JSVal.str s => !(s == "")
  | JSVal.bool b => b
  | JSVal.other t => t

/-- Result of the JavaScript test `typeof v === "string"`. -/
def isStr : JSVal → Bool
  | JSVal.str _ => true
  | _ => false

/-- Model of JavaScript `String.prototype.trim`: strip leading and
trailing whitespace.  Defined by structural recursion on the character
list so that it evaluates on concrete inputs. -/
def jsTrimStr (s : String) : String :=
  String.mk
    (((s.data.dropWhile Char.isWhitespace).reverse.dropWhile
        Char.isWhitespace).reverse)

/-- Result of `v.trim()`; only ever evaluated on strings in the source
because of short-circuit evaluation. -/
def jsTrim : JSVal → String
  | JSVal.str s => jsTrimStr s
  | _ => ""

/-- JavaScript `a || b`: `a` when truthy, otherwise `b`. -/
def jsOr (a b : JSVal) : JSVal :=
  if jsTruthy a then a else b

/-- A JavaScript object literal, as an ordered list of fields. -/
abbrev JSObj := List (String × JSVal)

/-- Field lookup on a `JSObj`; `none` means the object has no such field. -/
def jsGet : JSObj → String → Option JSVal
  | [], _ => none
  | (k, v) :: rest, key => if k = key then some v else jsGet rest key

/-- An HTTP response as the handlers observe it: status code plus the
text of the body. -/
structure HttpResponse where
  status : Nat
  body : String
deriving DecidableEq, Repr

/-- The `Response.ok` accessor of fetch: status in the range 200-299. -/
def respOk (r : HttpResponse) : Bool :=
  decide (200 ≤ r.status) && decide (r.status ≤ 299)

/-- A classified error: an instance of the `RetryableError` or
`FatalError` classes of `script.mjs`, carrying `message` and
`retryable`. -/
structure Err where
  message : String
  retryable : Bool
deriving DecidableEq, Repr

/-- Constructor of the `RetryableError` class: `retryable` is `true`. -/
def RetryableError (msg : String) : Err := ⟨msg, true⟩

/-- Constructor of the `FatalError` class: `retryable` is `false`. -/
def FatalError (msg : String) : Err := ⟨msg, false⟩

/-- A thrown JavaScript error: either a classified
`RetryableError`/`FatalError` instance, or any other exception (plain
`Error`, JSON parse failure, fetch transport failure), of which only the
message is kept. -/
inductive JsError where
  | classified (e : Err)
  | raw (message : String)
deriving DecidableEq, Repr

/-- One network round trip made via `fetch`. -/
inductive NetCall where
  | token
  | delete
deriving DecidableEq, Repr

namespace Script

/-- The `params` object of `script.mjs`: each field is `JSVal.undef`
when absent. -/
structure Params where
  workforce_pool_id : JSVal
  subject_id : JSVal
  project_id : JSVal
deriving DecidableEq, Repr

/-- The execution context, flattened to the only secret the code reads:
`context.secrets?.service_account_key` (`JSVal.undef` when the secret or
the whole `secrets` object is missing). -/
structure Context where
  service_account_key : JSVal
deriving DecidableEq, Repr

/-- The JSON object inside the base64 service-account key; fields are
`JSVal.undef` when missing from the key. -/
structure SAKey where
  client_email : JSVal
  private_key : JSVal
  project_id : JSVal
deriving DecidableEq, Repr

/-- External nondeterminism of one invocation: the outcome of parsing
the service-account key JSON, of RSA signing, and of the two fetches
(`Except.error` is a thrown exception message), plus the token the
successful exchange yields and the current timestamp. -/
structure World where
  keyJson : Except String SAKey
  sign : Except String String
  tokenFetch : Except String HttpResponse
  accessToken : String
  deleteFetch : Except String HttpResponse
  now : String
deriving Repr

/-- The test `!params[field] || typeof params[field] !== "string" ||
params[field].trim() === ""` of `validateInputs`. -/
def invalidParam (v : JSVal) : Bool :=
  !(jsTruthy v) || !(isStr v) || (jsTrim v == "")

/-- Embedding of `validateInputs` (script.mjs lines 127-134): checks
`workforce_pool_id` then `subject_id`, throwing a `FatalError` naming
the first invalid field. -/
def validateInputs (p : Params) : Except JsError Unit :=
  if invalidParam p.workforce_pool_id then
    Except.error (JsError.classified
      (FatalError "Missing or invalid required parameter: workforce_pool_id"))
  else if invalidParam p.subject_id then
    Except.error (JsError.classified
      (FatalError "Missing or invalid required parameter: subject_id"))
  else Except.ok ()

/-- Embedding of `getAccessToken` (script.mjs lines 27-82).  The whole
body is wrapped in try/catch: a `FatalError` is rethrown unchanged and
any other exception (key JSON parse, signing, fetch transport) is
wrapped as `FatalError "Invalid service account key: ..."`.  A non-2xx
token response raises `FatalError "Failed to get access token: ..."`.
The trace records whether the token fetch was issued. -/
def getAccessToken (w : World) : Except Err String × List NetCall :=
  match w.keyJson with
  | Except.error msg =>
      (Except.error (FatalError ("Invalid service account key: " ++ msg)), [])
  | Except.ok _ =>
    match w.sign with
    | Except.error msg =>
        (Except.error (FatalError ("Invalid service account key: " ++ msg)), [])
    | Except.ok _ =>
      match w.tokenFetch with
      | Except.error msg =>
          (Except.error (FatalError ("Invalid service account key: " ++ msg)),
           [NetCall.token])
      | Except.ok resp =>
          if respOk resp then (Except.ok w.accessToken, [NetCall.token])
          else
            (Except.error
               (FatalError ("Failed to get access token: " ++ resp.body)),
             [NetCall.token])

/-- Embedding of `deleteWorkforceUser` (script.mjs lines 92-121).  A
transport exception propagates raw; 404 returns normally; 429 or any
status at least 500 raises `RetryableError`; any other non-2xx raises
`FatalError`; 2xx returns normally.  Exactly one delete fetch is
issued. -/
def deleteWorkforceUser (_accessToken : String) (_projectId : JSVal)
    (_workforcePoolId _subjectId : JSVal) (w : World) :
    Except JsError Unit × List NetCall :=
  match w.deleteFetch with
  | Except.error msg => (Except.error (JsError.raw msg), [NetCall.delete])
  | Except.ok resp =>
      if resp.status = 404 then (Except.ok (), [NetCall.delete])
      else if resp.status = 429 ∨ 500 ≤ resp.status then
        (Except.error (JsError.classified (RetryableError
           ("Google Cloud API error (" ++ toString resp.status ++ "): "
             ++ resp.body))),
         [NetCall.delete])
      else if !(respOk resp) then
        (Except.error (JsError.classified (FatalError
           ("Failed to delete workforce user (" ++ toString resp.status
             ++ "): " ++ resp.body))),
         [NetCall.delete])
      else (Except.ok (), [NetCall.delete])

/-- Embedding of the project-id block of `invoke` (script.mjs lines
163-171): a truthy `project_id` parameter is used as is; otherwise the
key is parsed again (a parse failure is a raw exception) and its
`project_id` field is used, a falsy value there raising a
`FatalError`. -/
def resolveProjectId (project_id : JSVal) (w : World) : Except JsError JSVal :=
  if jsTruthy project_id then Except.ok project_id
  else
    match w.keyJson with
    | Except.error msg => Except.error (JsError.raw msg)
    | Except.ok key =>
        if jsTruthy key.project_id then Except.ok key.project_id
        else Except.error (JsError.classified (FatalError
          "Project ID not found in service account key and not provided in parameters"))

/-- The success object literal of `invoke` (script.mjs lines 178-183). -/
def successResult (p : Params) (now : String) : JSObj :=
  [("status", JSVal.str "success"),
   ("workforce_pool_id", p.workforce_pool_id),
   ("subject_id", p.subject_id),
   ("deleted_at", JSVal.str now)]

/-- The try block of `invoke` (script.mjs lines 146-186): validate
inputs, check the secret, acquire the token, resolve the project id,
issue the delete, and build the success result.  The second component
is the trace of fetches issued. -/
def invokeTry (p : Params) (ctx : Context) (w : World) :
    Except JsError JSObj × List NetCall :=
  match validateInputs p with
  | Except.error e => (Except.error e, [])
  | Except.ok () =>
    if !(jsTruthy ctx.service_account_key) then
      (Except.error (JsError.classified
         (FatalError "Missing required secret: service_account_key")), [])
    else
      match getAccessToken w with
      | (Except.error e, t) => (Except.error (JsError.classified e), t)
      | (Except.ok accessToken, t) =>
        match resolveProjectId p.project_id w with
        | Except.error e => (Except.error e, t)
        | Except.ok finalProjectId =>
          match deleteWorkforceUser accessToken finalProjectId
                  p.workforce_pool_id p.subject_id w with
          | (Except.error e, t2) => (Except.error e, t ++ t2)
          | (Except.ok (), t2) => (Except.ok (successResult p w.now), t ++ t2)

/-- The catch block of `invoke` (script.mjs lines 188-197): a
`RetryableError` or `FatalError` instance is rethrown unchanged; any
other exception is wrapped as `FatalError "Unexpected error: ..."`. -/
def catchWrap : JsError → Err
  | JsError.classified e => e
  | JsError.raw m => FatalError ("Unexpected error: " ++ m)

/-- Embedding of the `invoke` entry point of `script.mjs`: the try block
followed by its catch block.  Every escaping error is classified. -/
def invoke (p : Params) (ctx : Context) (w : World) :
    Except Err JSObj × List NetCall :=
  match invokeTry p ctx w with
  | (Except.error e, t) => (Except.error (catchWrap e), t)
  | (Except.ok r, t) => (Except.ok r, t)

/-- The `params` object passed to the `error` entry point: the original
identifiers plus the classified error. -/
structure ErrorParams where
  error : Err
  workforce_pool_id : JSVal
  subject_id : JSVal
deriving DecidableEq, Repr

/-- Embedding of the `error` entry point (script.mjs lines 206-231):
branches on `error.retryable` and returns the failed record; the trace
component records that no fetch is issued. -/
def errorHandler (p : ErrorParams) : JSObj × List NetCall :=
  if p.error.retryable then
    ([("status", JSVal.str "failed"),
      ("retryable", JSVal.bool true),
      ("error", JSVal.str p.error.message),
      ("workforce_pool_id", p.workforce_pool_id),
      ("subject_id", p.subject_id)], [])
  else
    ([("status", JSVal.str "failed"),
      ("retryable", JSVal.bool false),
      ("error", JSVal.str p.error.message),
      ("workforce_pool_id", p.workforce_pool_id),
      ("subject_id", p.subject_id)], [])

/-- The `params` object passed to the `halt` entry point. -/
structure HaltParams where
  reason : JSVal
  workforce_pool_id : JSVal
  subject_id : JSVal
deriving DecidableEq, Repr

/-- Embedding of the `halt` entry point (script.mjs lines 239-251): a
total function returning the halted record, falsy identifiers replaced
by the string `unknown`; the trace component records that no fetch is
issued. -/
def halt (p : HaltParams) (now : String) : JSObj × List NetCall :=
  ([("status", JSVal.str "halted"),
    ("workforce_pool_id", jsOr p.workforce_pool_id (JSVal.str "unknown")),
    ("subject_id", jsOr p.subject_id (JSVal.str "unknown")),
    ("reason", p.reason),
    ("halted_at", JSVal.str now)], [])

end Script

namespace Variant001

/-- External nondeterminism of the `src/unnamed/part_001` variant: the
outcome of `getAuthorizationHeader` (a throw propagates raw out of
`invoke`, which has no catch), the delete fetch, and the timestamp. -/
structure World where
  authHeader : Except String String
  deleteFetch : Except String HttpResponse
  now : String
deriving Repr

/-- Embedding of `invoke` of `src/unnamed/part_001` (lines 72-146):
validates `subjectId` then `workforcePoolId` (plain `Error` throws,
modelled raw), obtains the authorization header, issues the delete, and
maps the outcome as the source does: `response.ok` gives the plain
success object, 404 gives the success object with `alreadyDeleted:
true`, and any other status throws an `Error` whose message carries the
status code (the `result.error` refinements never fire because the
helper returns a `data` field, not an `error` field). -/
def invoke (workforcePoolId subjectId : JSVal) (w : World) :
    Except JsError JSObj :=
  if !(jsTruthy subjectId) || !(isStr subjectId) then
    Except.error (JsError.raw "Invalid or missing subjectId parameter")
  else if !(jsTruthy workforcePoolId) || !(isStr workforcePoolId) then
    Except.error (JsError.raw "Invalid or missing workforcePoolId parameter")
  else
    match w.authHeader with
    | Except.error m => Except.error (JsError.raw m)
    | Except.ok _ =>
      match w.deleteFetch with
      | Except.error m => Except.error (JsError.raw m)
      | Except.ok resp =>
          if respOk resp then
            Except.ok
              [("subjectId", subjectId),
               ("workforcePoolId", workforcePoolId),
               ("deleted", JSVal.bool true),
               ("deletedAt", JSVal.str w.now)]
          else if resp.status = 404 then
            Except.ok
              [("subjectId", subjectId),
               ("workforcePoolId", workforcePoolId),
               ("deleted", JSVal.bool true),
               ("alreadyDeleted", JSVal.bool true),
               ("deletedAt", JSVal.str w.now)]
          else
            Except.error (JsError.raw
              ("Failed to delete workforce user: " ++ toString resp.status))

end Variant001

/-! Helper definitions for stating the claims. -/

/-- Retryability of the error raised by `deleteWorkforceUser` on a
delete response with the given status and body; `none` when the call
succeeds or raises an unclassified error. -/
def deleteWorld (s : Nat) (body : String) : Script.World :=
  { keyJson := Except.ok ⟨JSVal.str "ce", JSVal.str "pk", JSVal.str "proj"⟩,
    sign := Except.ok "sig",
    tokenFetch := Except.ok ⟨200, "tok"⟩,
    accessToken := "tok",
    deleteFetch := Except.ok ⟨s, body⟩,
    now := "T" }

/-- Classification of the outcome of the delete call at status `s`. -/
def deleteOutcomeRetryable (s : Nat) (body : String) : Option Bool :=
  match (Script.deleteWorkforceUser "tok" (JSVal.str "proj")
          (JSVal.str "pool") (JSVal.str "subj") (deleteWorld s body)).1 with
  | Except.error (JsError.classified e) => some e.retryable
  | _ => none

/-- Retryability of the error raised by `getAccessToken`; `none` on
success. -/
def gatErrRetryable (w : Script.World) : Option Bool :=
  match (Script.getAccessToken w).1 with
  | Except.error e => some e.retryable
  | Except.ok _ => none

/-- An input value rejected by validation, in the terms of the claims:
missing, not a string, empty, or whitespace-only. -/
def badInput (v : JSVal) : Prop :=
  v = JSVal.undef ∨ isStr v = false ∨ v = JSVal.str "" ∨
    ∃ s, v = JSVal.str s ∧ jsTrimStr s = ""

/-- Concrete fixtures used by counterexamples and witnesses. -/
def goodKey : Script.SAKey :=
  ⟨JSVal.str "ce@example.com", JSVal.str "pk", JSVal.str "proj-1"⟩

def goodParams : Script.Params :=
  ⟨JSVal.str "pool-1", JSVal.str "subj-1", JSVal.undef⟩

def goodCtx : Script.Context := ⟨JSVal.str "b64key"⟩

def world404 : Script.World :=
  { keyJson := Except.ok goodKey, sign := Except.ok "sig",
    tokenFetch := Except.ok ⟨200, "tok"⟩, accessToken := "tok",
    deleteFetch := Except.ok ⟨404, "not found"⟩, now := "T1" }

/-! Helper lemmas. -/

theorem invalidParam_str_false (s : String) (h : jsTrimStr s ≠ "") :
    Script.invalidParam (JSVal.str s) = false := by
  have hs : (s == "") = false := by
    refine beq_eq_false_iff_ne.mpr fun he => h ?_
    rw [he]; rfl
  have ht : (jsTrimStr s == "") = false := beq_eq_false_iff_ne.mpr h
  simp [Script.invalidParam, jsTruthy, isStr, jsTrim, hs, ht]

theorem badInput_invalid (v : JSVal) (h : badInput v) :
    Script.invalidParam v = true := by
  rcases h with h | h | h | ⟨s, hv, hs⟩
  · subst h; rfl
  · rcases v with _ | s | b | t
    · rfl
    · simp [isStr] at h
    · cases b <;> rfl
    · cases t <;> rfl
  · subst h; rfl
  · subst hv
    simp [Script.invalidParam, jsTrim, hs]

theorem validateInputs_ok (p : Script.Params)
    (h1 : Script.invalidParam p.workforce_pool_id = false)
    (h2 : Script.invalidParam p.subject_id = false) :
    Script.validateInputs p = Except.ok () := by
  simp [Script.validateInputs, h1, h2]

theorem getAccessToken_ok (w : Script.World) (k : Script.SAKey) (sg : String)
    (resp : HttpResponse)
    (hk : w.keyJson = Except.ok k) (hs : w.sign = Except.ok sg)
    (ht : w.tokenFetch = Except.ok resp) (hr : respOk resp = true) :
    Script.getAccessToken w = (Except.ok w.accessToken, [NetCall.token]) := by
  unfold Script.getAccessToken
  rw [hk, hs, ht]
  simp [hr]

theorem getAccessToken_trace (w : Script.World) :
    (Script.getAccessToken w).2 = [] ∨
      (Script.getAccessToken w).2 = [NetCall.token] := by
  unfold Script.getAccessToken
  rcases hk : w.keyJson with m | k
  · exact Or.inl rfl
  · rcases hs : w.sign with m | sg
    · exact Or.inl rfl
    · rcases ht : w.tokenFetch with m | resp
      · exact Or.inr rfl
      · by_cases hr : respOk resp = true <;> simp [hr]

theorem getAccessToken_ok_elim (w : Script.World) (a : String)
    (h : (Script.getAccessToken w).1 = Except.ok a) :
    Script.getAccessToken w = (Except.ok w.accessToken, [NetCall.token]) := by
  unfold Script.getAccessToken at h ⊢
  rcases hk : w.keyJson with m | k <;> rw [hk] at h
  · simp at h
  · rcases hs : w.sign with m | sg <;> rw [hs] at h
    · simp at h
    · rcases ht : w.tokenFetch with m | resp <;> rw [ht] at h
      · simp at h
      · by_cases hr : respOk resp = true
        · simp [hr]
        · simp [hr] at h

theorem deleteWorkforceUser_trace (a : String) (pid pool subj : JSVal)
    (w : Script.World) :
    (Script.deleteWorkforceUser a pid pool subj w).2 = [NetCall.delete] := by
  unfold Script.deleteWorkforceUser
  rcases hd : w.deleteFetch with m | resp
  · rfl
  · by_cases h4 : resp.status = 404
    · simp [h4]
    · by_cases h5 : resp.status = 429 ∨ 500 ≤ resp.status
      · simp [h4, h5]
      · by_cases ho : respOk resp = true <;> simp [h4, h5, ho]

theorem invoke_trace (p : Script.Params) (ctx : Script.Context)
    (w : Script.World) :
    (Script.invoke p ctx w).2 = (Script.invokeTry p ctx w).2 := by
  unfold Script.invoke
  rcases hI : Script.invokeTry p ctx w with ⟨r, t⟩
  cases r <;> rfl

theorem gat_never_retryable (w : Script.World) :
    gatErrRetryable w ≠ some true := by
  unfold gatErrRetryable Script.getAccessToken
  rcases hk : w.keyJson with m | k
  · simp [FatalError]
  · rcases hs : w.sign with m | sg
    · simp [FatalError]
    · rcases ht : w.tokenFetch with m | resp
      · simp [FatalError]
      · by_cases hr : respOk resp = true <;> simp [hr, FatalError]

/-! Claim theorems. -/

/-- C2: for every params object in which `workforce_pool_id` or
`subject_id` is missing, not a string, empty, or whitespace-only,
`invoke` fails with a non-retryable (fatal) validation error and issues
zero HTTP requests, including the token exchange. -/
theorem C2_validation_before_network (p : Script.Params)
    (ctx : Script.Context) (w : Script.World)
    (h : badInput p.workforce_pool_id ∨ badInput p.subject_id) :
    (∃ e : Err, (Script.invoke p ctx w).1 = Except.error e ∧
       e.retryable = false) ∧
    (Script.invoke p ctx w).2 = [] := by
  by_cases hp : Script.invalidParam p.workforce_pool_id = true
  · constructor
    · refine ⟨FatalError
        "Missing or invalid required parameter: workforce_pool_id", ?_, rfl⟩
      simp [Script.invoke, Script.invokeTry, Script.validateInputs, hp,
        Script.catchWrap]
    · simp [Script.invoke, Script.invokeTry, Script.validateInputs, hp]
  · have hsub : Script.invalidParam p.subject_id = true := by
      rcases h with h | h
      · exact absurd (badInput_invalid _ h) hp
      · exact badInput_invalid _ h
    have hp2 : Script.invalidParam p.workforce_pool_id = false := by
      cases hq : Script.invalidParam p.workforce_pool_id
      · rfl
      · exact absurd hq hp
    constructor
    · refine ⟨FatalError
        "Missing or invalid required parameter: subject_id", ?_, rfl⟩
      simp [Script.invoke, Script.invokeTry, Script.validateInputs, hp2, hsub,
        Script.catchWrap]
    · simp [Script.invoke, Script.invokeTry, Script.validateInputs, hp2, hsub]

/-- Witness for C2 at a params object whose pool id is missing. -/
theorem C2_validation_before_network_witness :
    (∃ e : Err,
       (Script.invoke ⟨JSVal.undef, JSVal.str "x", JSVal.undef⟩ goodCtx
          world404).1 = Except.error e ∧ e.retryable = false) ∧
    (Script.invoke ⟨JSVal.undef, JSVal.str "x", JSVal.undef⟩ goodCtx
       world404).2 = [] :=
  C2_validation_before_network ⟨JSVal.undef, JSVal.str "x", JSVal.undef⟩
    goodCtx world404 (Or.inl (Or.inl rfl))

/-- C3: a delete response with status 429, 502, 503 or 504 raises an
error with `retryable = true`; a delete response with status 400, 401
or 403 raises an error with `retryable = false`. -/
theorem C3_status_retryability (body : String) (s t : Nat)
    (hs : s = 429 ∨ s = 502 ∨ s = 503 ∨ s = 504)
    (ht : t = 400 ∨ t = 401 ∨ t = 403) :
    deleteOutcomeRetryable s body = some true ∧
    deleteOutcomeRetryable t body = some false := by
  constructor
  · rcases hs with h | h | h | h <;> subst h <;> rfl
  · rcases ht with h | h | h <;> subst h <;> rfl

/-- Witness for C3 at statuses 429 and 400. -/
theorem C3_status_retryability_witness :
    deleteOutcomeRetryable 429 "" = some true ∧
    deleteOutcomeRetryable 400 "" = some false :=
  C3_status_retryability "" 429 400 (Or.inl rfl) (Or.inl rfl)

/-- C4 counterexample: a delete response with status 500 (or 501) is
neither 2xx, nor 404, nor in the set 429, 502, 503, 504, yet the code
classifies it as Retryable (`status === 429 || status >= 500`), not
Fatal as the claim states. -/
theorem C4_counterexample :
    deleteOutcomeRetryable 500 "oops" = some true ∧
    deleteOutcomeRetryable 501 "oops" = some true :=
  ⟨rfl, rfl⟩

/-- C4 (amended): for every delete response whose status is neither 2xx
nor 404, the failure is Retryable exactly when the status is 429 or at
least 500 (so 500 and 501 are Retryable), and Fatal otherwise. -/
theorem C4_retryable_classification (body : String) (s : Nat)
    (h2xx : ¬(200 ≤ s ∧ s ≤ 299)) (h404 : s ≠ 404) :
    ((s = 429 ∨ 500 ≤ s) → deleteOutcomeRetryable s body = some true) ∧
    (¬(s = 429 ∨ 500 ≤ s) → deleteOutcomeRetryable s body = some false) := by
  have hro : respOk ⟨s, body⟩ = false := by
    simp only [respOk, Bool.and_eq_false_iff, decide_eq_false_iff_not]
    omega
  constructor
  · intro hr
    unfold deleteOutcomeRetryable Script.deleteWorkforceUser deleteWorld
    simp [h404, hr, RetryableError]
  · intro hr
    unfold deleteOutcomeRetryable Script.deleteWorkforceUser deleteWorld
    simp [h404, hr, hro, FatalError]

/-- Witness for C4 (amended) at statuses 500 (Retryable) and 418
(Fatal). -/
theorem C4_retryable_classification_witness :
    deleteOutcomeRetryable 500 "x" = some true ∧
    deleteOutcomeRetryable 418 "x" = some false :=
  ⟨(C4_retryable_classification "x" 500 (by omega) (by omega)).1
      (Or.inr (by omega)),
   (C4_retryable_classification "x" 418 (by omega) (by omega)).2
      (by omega)⟩

/-- C5: the error handler issues no network call and returns the failed
record with the retryable classification and message of the incoming
error passed through unchanged and the identifiers echoed. -/
theorem C5_error_passthrough (p : Script.ErrorParams) :
    jsGet (Script.errorHandler p).1 "status" = some (JSVal.str "failed") ∧
    jsGet (Script.errorHandler p).1 "retryable" =
      some (JSVal.bool p.error.retryable) ∧
    jsGet (Script.errorHandler p).1 "error" =
      some (JSVal.str p.error.message) ∧
    jsGet (Script.errorHandler p).1 "workforce_pool_id" =
      some p.workforce_pool_id ∧
    jsGet (Script.errorHandler p).1 "subject_id" = some p.subject_id ∧
    (Script.errorHandler p).2 = [] := by
  cases hr : p.error.retryable <;>
    simp [Script.errorHandler, hr, jsGet]

/-- C6: `halt` is total (never throws), issues no network call, and
returns the halted record; an absent identifier is replaced by the
sentinel string `unknown`. -/
theorem C6_halt_defaults (p : Script.HaltParams) (now : String) :
    (Script.halt p now).2 = [] ∧
    jsGet (Script.halt p now).1 "status" = some (JSVal.str "halted") ∧
    jsGet (Script.halt p now).1 "reason" = some p.reason ∧
    jsGet (Script.halt p now).1 "halted_at" = some (JSVal.str now) ∧
    (p.workforce_pool_id = JSVal.undef →
      jsGet (Script.halt p now).1 "workforce_pool_id" =
        some (JSVal.str "unknown")) ∧
    (p.subject_id = JSVal.undef →
      jsGet (Script.halt p now).1 "subject_id" =
        some (JSVal.str "unknown")) := by
  refine ⟨rfl, rfl, rfl, rfl, ?_, ?_⟩ <;> intro h <;>
    simp [Script.halt, jsGet, h, jsOr, jsTruthy]

/-- Witness for C6 at a params object with both identifiers absent. -/
theorem C6_halt_defaults_witness :
    jsGet (Script.halt ⟨JSVal.str "shutdown", JSVal.undef, JSVal.undef⟩
      "T").1 "workforce_pool_id" = some (JSVal.str "unknown") ∧
    jsGet (Script.halt ⟨JSVal.str "shutdown", JSVal.undef, JSVal.undef⟩
      "T").1 "subject_id" = some (JSVal.str "unknown") :=
  ⟨(C6_halt_defaults ⟨JSVal.str "shutdown", JSVal.undef, JSVal.undef⟩
      "T").2.2.2.2.1 rfl,
   (C6_halt_defaults ⟨JSVal.str "shutdown", JSVal.undef, JSVal.undef⟩
      "T").2.2.2.2.2 rfl⟩

/-- C7: a token exchange that returns a non-2xx response makes
`getAccessToken` fail with `retryable = false`, and `getAccessToken`
never raises a retryable error in any world. -/
theorem C7_token_exchange_fatal (w : Script.World) (resp : HttpResponse)
    (ht : w.tokenFetch = Except.ok resp) (hr : respOk resp = false) :
    gatErrRetryable w = some false ∧
    ∀ w2 : Script.World, gatErrRetryable w2 ≠ some true := by
  refine ⟨?_, fun w2 => gat_never_retryable w2⟩
  unfold gatErrRetryable Script.getAccessToken
  rcases hk : w.keyJson with m | k
  · simp [FatalError]
  · rcases hs : w.sign with m | sg
    · simp [FatalError]
    · rw [ht]
      simp [hr, FatalError]

/-- Concrete world whose token exchange answers 500. -/
def worldBadToken : Script.World :=
  { keyJson := Except.ok goodKey, sign := Except.ok "sig",
    tokenFetch := Except.ok ⟨500, "bad"⟩, accessToken := "tok",
    deleteFetch := Except.ok ⟨200, ""⟩, now := "T" }

/-- Witness for C7 at a 500 token response. -/
theorem C7_token_exchange_fatal_witness :
    gatErrRetryable worldBadToken = some false :=
  (C7_token_exchange_fatal worldBadToken ⟨500, "bad"⟩ rfl rfl).1

/-- Full characterization of a successful invocation whose delete
response is 404: the success result is returned and the trace is one
token exchange followed by one delete. -/
theorem invoke_404_success (p : Script.Params) (ctx : Script.Context)
    (w : Script.World) (k : Script.SAKey) (sg : String)
    (tresp : HttpResponse) (dbody : String)
    (h1 : Script.invalidParam p.workforce_pool_id = false)
    (h2 : Script.invalidParam p.subject_id = false)
    (hctx : jsTruthy ctx.service_account_key = true)
    (hk : w.keyJson = Except.ok k) (hsg : w.sign = Except.ok sg)
    (ht : w.tokenFetch = Except.ok tresp) (htok : respOk tresp = true)
    (hpid : jsTruthy p.project_id = true ∨ jsTruthy k.project_id = true)
    (hd : w.deleteFetch = Except.ok ⟨404, dbody⟩) :
    Script.invoke p ctx w =
      (Except.ok (Script.successResult p w.now),
       [NetCall.token, NetCall.delete]) := by
  have hval := validateInputs_ok p h1 h2
  have hgat := getAccessToken_ok w k sg tresp hk hsg ht htok
  have hres : ∃ pid, Script.resolveProjectId p.project_id w = Except.ok pid := by
    by_cases hq : jsTruthy p.project_id = true
    · exact ⟨p.project_id, by simp [Script.resolveProjectId, hq]⟩
    · rcases hpid with hp | hp
      · exact absurd hp hq
      · exact ⟨k.project_id, by simp [Script.resolveProjectId, hq, hk, hp]⟩
  rcases hres with ⟨pid, hres⟩
  have hdel : ∀ a pj, Script.deleteWorkforceUser a pj p.workforce_pool_id
      p.subject_id w = (Except.ok (), [NetCall.delete]) := by
    intro a pj
    unfold Script.deleteWorkforceUser
    rw [hd]
    simp
  unfold Script.invoke Script.invokeTry
  simp [hval, hctx, hgat, hres, hdel]

/-- C1 counterexample: a concrete invocation of the `script.mjs`
`invoke` with valid identifiers, a valid credential and a 404 delete
response returns a success result that has no `alreadyDeleted` field at
all, so the field is not `true` as the claim states. -/
theorem C1_counterexample :
    (Script.invoke goodParams goodCtx world404).1 =
      Except.ok (Script.successResult goodParams world404.now) ∧
    jsGet (Script.successResult goodParams world404.now) "alreadyDeleted" =
      none :=
  ⟨rfl, rfl⟩

/-- C1 (amended): with valid identifiers, a valid credential and a 404
delete response, `invoke` returns success; the `script.mjs` variant
returns the same four-field success shape as a normal delete, with no
`alreadyDeleted` field, while the `part_001` variant returns
`alreadyDeleted = true`.  The success result equals
`successResult p now` for every such world, so invoking twice against
an already-deleted subject yields the same success shape both times
(the two worlds `w` and `w2` below). -/
theorem C1_idempotent_success
    (p : Script.Params) (ctx : Script.Context) (w w2 : Script.World)
    (k k2 : Script.SAKey) (sg sg2 : String) (tresp tresp2 : HttpResponse)
    (dbody dbody2 : String) (pool subj : String)
    (w001 : Variant001.World) (ah d1 : String)
    (h1 : Script.invalidParam p.workforce_pool_id = false)
    (h2 : Script.invalidParam p.subject_id = false)
    (hctx : jsTruthy ctx.service_account_key = true)
    (hk : w.keyJson = Except.ok k) (hsg : w.sign = Except.ok sg)
    (ht : w.tokenFetch = Except.ok tresp) (htok : respOk tresp = true)
    (hpid : jsTruthy p.project_id = true ∨ jsTruthy k.project_id = true)
    (hd : w.deleteFetch = Except.ok ⟨404, dbody⟩)
    (hk2 : w2.keyJson = Except.ok k2) (hsg2 : w2.sign = Except.ok sg2)
    (ht2 : w2.tokenFetch = Except.ok tresp2) (htok2 : respOk tresp2 = true)
    (hpid2 : jsTruthy p.project_id = true ∨ jsTruthy k2.project_id = true)
    (hd2 : w2.deleteFetch = Except.ok ⟨404, dbody2⟩)
    (hpool : pool ≠ "") (hsubj : subj ≠ "")
    (hah : w001.authHeader = Except.ok ah)
    (hd001 : w001.deleteFetch = Except.ok ⟨404, d1⟩) :
    (Script.invoke p ctx w).1 =
      Except.ok (Script.successResult p w.now) ∧
    (Script.invoke p ctx w2).1 =
      Except.ok (Script.successResult p w2.now) ∧
    jsGet (Script.successResult p w.now) "alreadyDeleted" = none ∧
    Variant001.invoke (JSVal.str pool) (JSVal.str subj) w001 =
      Except.ok [("subjectId", JSVal.str subj),
                 ("workforcePoolId", JSVal.str pool),
                 ("deleted", JSVal.bool true),
                 ("alreadyDeleted", JSVal.bool true),
                 ("deletedAt", JSVal.str w001.now)] ∧
    jsGet [("subjectId", JSVal.str subj),
           ("workforcePoolId", JSVal.str pool),
           ("deleted", JSVal.bool true),
           ("alreadyDeleted", JSVal.bool true),
           ("deletedAt", JSVal.str w001.now)] "alreadyDeleted" =
      some (JSVal.bool true) := by
  refine ⟨?_, ?_, rfl, ?_, rfl⟩
  · rw [invoke_404_success p ctx w k sg tresp dbody h1 h2 hctx hk hsg ht htok
      hpid hd]
  · rw [invoke_404_success p ctx w2 k2 sg2 tresp2 dbody2 h1 h2 hctx hk2 hsg2
      ht2 htok2 hpid2 hd2]
  · have hsb : (subj == "") = false := beq_eq_false_iff_ne.mpr hsubj
    have hpb : (pool == "") = false := beq_eq_false_iff_ne.mpr hpool
    unfold Variant001.invoke
    rw [hah, hd001]
    simp [jsTruthy, isStr, hsb, hpb, respOk]

/-- Second fixture world answering 404 with a different timestamp. -/
def world404b : Script.World :=
  { keyJson := Except.ok goodKey, sign := Except.ok "sig",
    tokenFetch := Except.ok ⟨200, "tok"⟩, accessToken := "tok",
    deleteFetch := Except.ok ⟨404, "nf2"⟩, now := "T2" }

/-- Fixture world for the `part_001` variant answering 404. -/
def w001fix : Variant001.World :=
  { authHeader := Except.ok "Bearer t",
    deleteFetch := Except.ok ⟨404, "nf"⟩, now := "T3" }

/-- Witness for C1 (amended) at the concrete fixtures. -/
theorem C1_idempotent_success_witness :
    (Script.invoke goodParams goodCtx world404).1 =
      Except.ok (Script.successResult goodParams world404.now) ∧
    Variant001.invoke (JSVal.str "pool-1") (JSVal.str "subj-1") w001fix =
      Except.ok [("subjectId", JSVal.str "subj-1"),
                 ("workforcePoolId", JSVal.str "pool-1"),
                 ("deleted", JSVal.bool true),
                 ("alreadyDeleted", JSVal.bool true),
                 ("deletedAt", JSVal.str w001fix.now)] := by
  have h := C1_idempotent_success goodParams goodCtx world404 world404b
    goodKey goodKey "sig" "sig" ⟨200, "tok"⟩ ⟨200, "tok"⟩ "not found" "nf2"
    "pool-1" "subj-1" w001fix "Bearer t" "nf"
    rfl rfl rfl rfl rfl rfl rfl (Or.inr rfl) rfl
    rfl rfl rfl rfl (Or.inr rfl) rfl
    (by decide) (by decide) rfl rfl
  exact ⟨h.1, h.2.2.2.1⟩

/-- Fixture key whose JSON carries a `project_id`, and a world built on
it; used by C8. -/
def keyOnly : Script.SAKey := ⟨JSVal.str "ce", JSVal.str "pk", JSVal.str "proj-key"⟩

def worldC8 : Script.World :=
  { keyJson := Except.ok keyOnly, sign := Except.ok "sig",
    tokenFetch := Except.ok ⟨200, ""⟩, accessToken := "tok",
    deleteFetch := Except.ok ⟨200, ""⟩, now := "T" }

/-- Fixture key with no `project_id` field, and a world built on it;
used by C8 and C9. -/
def keyNoProj : Script.SAKey := ⟨JSVal.str "ce", JSVal.str "pk", JSVal.undef⟩

def worldC9 : Script.World :=
  { keyJson := Except.ok keyNoProj, sign := Except.ok "sig",
    tokenFetch := Except.ok ⟨200, ""⟩, accessToken := "tok",
    deleteFetch := Except.ok ⟨200, ""⟩, now := "T" }

/-- C8 counterexample: with the `project_id` parameter present but
equal to the empty string, the code derives the project id from the key
instead of using the parameter unchanged (the JavaScript test is
truthiness, not presence). -/
theorem C8_counterexample :
    Script.resolveProjectId (JSVal.str "") worldC8 =
      Except.ok (JSVal.str "proj-key") ∧
    JSVal.str "proj-key" ≠ JSVal.str "" :=
  ⟨rfl, by decide⟩

/-- C8 (amended): a truthy `project_id` parameter is used unchanged; a
falsy one (absent, or present but empty) triggers derivation from the
parsed key, and when the key field is falsy too, `invoke` fails with a
fatal error. -/
theorem C8_project_id_resolution (pid : JSVal) (w : Script.World)
    (k : Script.SAKey) (hk : w.keyJson = Except.ok k) :
    (jsTruthy pid = true → Script.resolveProjectId pid w = Except.ok pid) ∧
    (jsTruthy pid = false → jsTruthy k.project_id = true →
      Script.resolveProjectId pid w = Except.ok k.project_id) ∧
    (jsTruthy pid = false → jsTruthy k.project_id = false →
      Script.resolveProjectId pid w = Except.error (JsError.classified
        (FatalError
          "Project ID not found in service account key and not provided in parameters"))) ∧
    (∀ (p : Script.Params) (ctx : Script.Context) (sg : String)
        (tresp : HttpResponse), p.project_id = pid →
      Script.invalidParam p.workforce_pool_id = false →
      Script.invalidParam p.subject_id = false →
      jsTruthy ctx.service_account_key = true →
      w.sign = Except.ok sg → w.tokenFetch = Except.ok tresp →
      respOk tresp = true →
      jsTruthy pid = false → jsTruthy k.project_id = false →
      (Script.invoke p ctx w).1 = Except.error
        (FatalError
          "Project ID not found in service account key and not provided in parameters")) := by
  refine ⟨?_, ?_, ?_, ?_⟩
  · intro hq
    simp [Script.resolveProjectId, hq]
  · intro hq hkp
    simp [Script.resolveProjectId, hq, hk, hkp]
  · intro hq hkp
    simp [Script.resolveProjectId, hq, hk, hkp]
  · intro p ctx sg tresp hpp h1 h2 hctx hsg ht htok hq hkp
    have hval := validateInputs_ok p h1 h2
    have hgat := getAccessToken_ok w k sg tresp hk hsg ht htok
    have hres : Script.resolveProjectId p.project_id w =
        Except.error (JsError.classified (FatalError
          "Project ID not found in service account key and not provided in parameters")) := by
      rw [hpp]
      simp [Script.resolveProjectId, hq, hk, hkp]
    unfold Script.invoke Script.invokeTry
    simp [hval, hctx, hgat, hres, Script.catchWrap]

/-- Witness for C8 (amended): derivation from the key when the
parameter is absent, and the fatal failure of `invoke` when neither is
present. -/
theorem C8_project_id_resolution_witness :
    Script.resolveProjectId JSVal.undef worldC8 =
      Except.ok (JSVal.str "proj-key") ∧
    (Script.invoke goodParams goodCtx worldC9).1 = Except.error
      (FatalError
        "Project ID not found in service account key and not provided in parameters") :=
  ⟨(C8_project_id_resolution JSVal.undef worldC8 keyOnly rfl).2.1 rfl rfl,
   (C8_project_id_resolution JSVal.undef worldC9 keyNoProj rfl).2.2.2
     goodParams goodCtx "sig" ⟨200, ""⟩ rfl rfl rfl rfl rfl rfl rfl rfl rfl⟩

/-- The trace of the try block of `invoke` is always one of: nothing,
one token exchange, or a token exchange followed by one delete. -/
theorem invokeTry_trace (p : Script.Params) (ctx : Script.Context)
    (w : Script.World) :
    (Script.invokeTry p ctx w).2 = [] ∨
    (Script.invokeTry p ctx w).2 = [NetCall.token] ∨
    (Script.invokeTry p ctx w).2 = [NetCall.token, NetCall.delete] := by
  unfold Script.invokeTry
  rcases hv : Script.validateInputs p with e | u
  · exact Or.inl rfl
  · cases u
    by_cases hc : jsTruthy ctx.service_account_key = true
    · rcases hg : Script.getAccessToken w with ⟨r, t⟩
      have htr : t = [] ∨ t = [NetCall.token] := by
        have h2 := getAccessToken_trace w
        rw [hg] at h2
        exact h2
      cases r with
      | error e =>
        rcases htr with h | h
        · subst h
          exact Or.inl (by simp [hc])
        · subst h
          exact Or.inr (Or.inl (by simp [hc]))
      | ok a =>
        have hfull := getAccessToken_ok_elim w a (by rw [hg])
        rw [hg] at hfull
        have ht2 : t = [NetCall.token] := congrArg Prod.snd hfull
        subst ht2
        rcases hres : Script.resolveProjectId p.project_id w with e | pidv
        · exact Or.inr (Or.inl (by simp [hc, hres]))
        · rcases hdel : Script.deleteWorkforceUser a pidv
              p.workforce_pool_id p.subject_id w with ⟨r2, t2⟩
          have ht3 : t2 = [NetCall.delete] := by
            have h3 := deleteWorkforceUser_trace a pidv
              p.workforce_pool_id p.subject_id w
            rw [hdel] at h3
            exact h3
          subst ht3
          rcases r2 with e2 | u2
          · exact Or.inr (Or.inr (by simp [hc, hres, hdel]))
          · cases u2
            exact Or.inr (Or.inr (by simp [hc, hres, hdel]))
    · have hc2 : jsTruthy ctx.service_account_key = false := by
        cases hq : jsTruthy ctx.service_account_key
        · rfl
        · exact absurd hq hc
      exact Or.inl (by simp [hc2])

/-- C9 counterexample: an invocation with valid identifiers and a
successful credential acquisition issues no delete call at all, because
project-id resolution fails afterwards — refuting "exactly one delete
when validation and credential acquisition succeed". -/
theorem C9_counterexample :
    Script.validateInputs goodParams = Except.ok () ∧
    (Script.getAccessToken worldC9).1 = Except.ok "tok" ∧
    (Script.invoke goodParams goodCtx worldC9).2 = [NetCall.token] :=
  ⟨rfl, rfl, rfl⟩

/-- C9 (amended): every invocation issues at most one delete request,
with no internal retry loop, and the token exchange strictly precedes
the delete call (the trace is one of nothing, token only, or token then
delete); the delete is issued exactly once when validation, credential
acquisition and project-id resolution all succeed. -/
theorem C9_single_delete (p : Script.Params) (ctx : Script.Context)
    (w : Script.World) :
    ((Script.invoke p ctx w).2 = [] ∨
     (Script.invoke p ctx w).2 = [NetCall.token] ∨
     (Script.invoke p ctx w).2 = [NetCall.token, NetCall.delete]) ∧
    (Script.validateInputs p = Except.ok () →
      jsTruthy ctx.service_account_key = true →
      (Script.getAccessToken w).1.isOk = true →
      (Script.resolveProjectId p.project_id w).isOk = true →
      (Script.invoke p ctx w).2 = [NetCall.token, NetCall.delete]) := by
  constructor
  · rw [invoke_trace]
    exact invokeTry_trace p ctx w
  · intro hval hc hga hres
    rw [invoke_trace]
    have hfull : Script.getAccessToken w =
        (Except.ok w.accessToken, [NetCall.token]) := by
      rcases hg : (Script.getAccessToken w).1 with e | a
      · rw [hg] at hga
        simp [Except.isOk, Except.toBool] at hga
      · exact getAccessToken_ok_elim w a hg
    rcases hres2 : Script.resolveProjectId p.project_id w with e | pidv
    · rw [hres2] at hres
      simp [Except.isOk, Except.toBool] at hres
    · unfold Script.invokeTry
      rcases hdel : Script.deleteWorkforceUser w.accessToken pidv
          p.workforce_pool_id p.subject_id w with ⟨r2, t2⟩
      have ht3 : t2 = [NetCall.delete] := by
        have h3 := deleteWorkforceUser_trace w.accessToken pidv
          p.workforce_pool_id p.subject_id w
        rw [hdel] at h3
        exact h3
      subst ht3
      rcases r2 with e2 | u2
      · simp [hval, hc, hfull, hres2, hdel]
      · cases u2
        simp [hval, hc, hfull, hres2, hdel]

/-- Witness for C9 (amended): the happy path issues exactly one token
exchange followed by exactly one delete. -/
theorem C9_single_delete_witness :
    (Script.invoke goodParams goodCtx world404).2 =
      [NetCall.token, NetCall.delete] :=
  (C9_single_delete goodParams goodCtx world404).2 rfl rfl rfl rfl

/-- C10: every error escaping `invoke` is classified: a
`RetryableError` or `FatalError` raised inside is rethrown with its
classification intact, any other exception is wrapped into a fatal
error with the `Unexpected error` prefix and `retryable = false`, and
every escaping error carries a boolean `retryable` field. -/
theorem C10_error_classification (p : Script.Params) (ctx : Script.Context)
    (w : Script.World) :
    (∀ m, (Script.invokeTry p ctx w).1 = Except.error (JsError.raw m) →
      (Script.invoke p ctx w).1 =
        Except.error ⟨"Unexpected error: " ++ m, false⟩) ∧
    (∀ e, (Script.invokeTry p ctx w).1 =
        Except.error (JsError.classified e) →
      (Script.invoke p ctx w).1 = Except.error e) ∧
    (∀ e, (Script.invoke p ctx w).1 = Except.error e →
      e.retryable = true ∨ e.retryable = false) := by
  refine ⟨?_, ?_, ?_⟩
  · intro m hm
    unfold Script.invoke
    rcases hI : Script.invokeTry p ctx w with ⟨r, t⟩
    rw [hI] at hm
    simp only [] at hm
    subst hm
    rfl
  · intro e he
    unfold Script.invoke
    rcases hI : Script.invokeTry p ctx w with ⟨r, t⟩
    rw [hI] at he
    simp only [] at he
    subst he
    rfl
  · intro e he
    rcases Bool.eq_false_or_eq_true e.retryable with h | h
    · exact Or.inl h
    · exact Or.inr h

/-- Fixture world whose delete fetch throws a transport exception. -/
def worldRaw : Script.World :=
  { keyJson := Except.ok goodKey, sign := Except.ok "sig",
    tokenFetch := Except.ok ⟨200, "tok"⟩, accessToken := "tok",
    deleteFetch := Except.error "boom", now := "T" }

/-- Witness for C10: a raw transport exception from the delete fetch is
wrapped into a fatal `Unexpected error`. -/
theorem C10_error_classification_witness :
    (Script.invoke goodParams goodCtx worldRaw).1 =
      Except.error ⟨"Unexpected error: " ++ "boom", false⟩ :=
  (C10_error_classification goodParams goodCtx worldRaw).1 "boom" rfl
